import Mathlib

/-
Verification of the build-pipeline orchestrator in
`tools/launcher/build_gui.py` (class `BuilderGUI`).

The embedding models, from the source:
  * the output-line classifier inside `run_command` (lines 1824-1832),
  * `run_command` itself: line streaming, the `is_building` cancellation
    check performed before processing each line, and the final
    `returncode == 0` result (lines 1788-1839),
  * the log queue (`log` puts onto `queue.Queue`, `process_log_queue`
    drains it with `get_nowait` until `queue.Empty`),
  * the app-directory discovery loop of build step 5b
    (`for base in [...]: if base.exists(): for p in base.rglob('server.js')`),
  * the node_modules repair decision of step 5b
    (`if source_nm.exists() and (not win_unpacked_nm.exists() or not dotenv_exists)`),
  * the signing-environment preparation of step 5 (lines 1592-1612),
  * the better_sqlite3 timestamp check after the rebuild stage
    (lines 1573-1584),
  * the whole of `run_build` from step 2 onward, as a function from an
    explicit "world" (the exit codes and output of each external command,
    the relevant filesystem facts, and the point at which the shared
    `is_building` flag is observed cleared) to the build outcome and the
    ordered list of executed stages.

Machine integers do not occur on the modelled paths; exit codes are
modelled as `Int`.  Filesystem and process behaviour enter only through
the explicit `World` record.
-/

/-- Severity tags used by `BuilderGUI.log`.  The source uses the strings
'info', 'step', 'success', 'warning', 'error'. -/
inductive Severity where
  | info
  | step
  | success
  | warning
  | error
deriving DecidableEq, Repr

/-- Lowercasing as applied by Python's `str.lower()` restricted to ASCII
letters, which is what `Char.toLower` implements; the classifier only
ever looks for the ASCII substrings "error", "warning" and "warn". -/
def lowerStr (s : String) : String := ⟨s.data.map Char.toLower⟩

/-- Python's `str.rstrip()`: drop trailing whitespace.  `run_command`
applies it to every streamed line before classifying it. -/
def stripRight (s : String) : String :=
  ⟨(s.data.reverse.dropWhile Char.isWhitespace).reverse⟩

/-- Python's `str.strip()`: drop leading and trailing whitespace.
`run_build` applies it to the certificate-reference field. -/
def stripWs (s : String) : String :=
  ⟨((s.data.dropWhile Char.isWhitespace).reverse.dropWhile Char.isWhitespace).reverse⟩

/-- Whether `pat` is a leading segment of `s` (over character lists). -/
def leadsWithList (pat s : List Char) : Bool :=
  match pat, s with
  | [], _ => true
  | _ :: _, [] => false
  | a :: as, b :: bs => a == b && leadsWithList as bs

/-- Whether `pat` occurs as a contiguous segment of `s`: Python's
`pat in s` membership test on strings, over character lists. -/
def hasSubList (pat : List Char) : List Char → Bool
  | [] => leadsWithList pat []
  | s@(_ :: rest) => leadsWithList pat s || hasSubList pat rest

/-- Python's substring containment `pat in s`. -/
def hasSub (pat s : String) : Bool := hasSubList pat.data s.data

/-- The line classifier of `run_command` (source lines 1827-1832):
`if 'error' in line.lower() or '⨯' in line` gives `error`,
`elif 'warning' in line.lower() or 'warn' in line.lower()` gives
`warning`, `else` gives `info`. -/
def classifyLine (line : String) : Severity :=
  if hasSub "error" (lowerStr line) || hasSub "⨯" line then .error
  else if hasSub "warning" (lowerStr line) || hasSub "warn" (lowerStr line) then .warning
  else .info

/-- The claim's error indicator: the line contains "error"
case-insensitively or contains the failure glyph.  This is literally the
first guard of the classifier. -/
def isErrorLine (line : String) : Bool :=
  hasSub "error" (lowerStr line) || hasSub "⨯" line

/-- The claim's warning indicator: the line contains "warn"
case-insensitively. -/
def isWarnLine (line : String) : Bool :=
  hasSub "warn" (lowerStr line)

theorem leadsWithList_of_append (p q s : List Char)
    (h : leadsWithList (p ++ q) s = true) : leadsWithList p s = true := by
  induction p generalizing s with
  | nil => rfl
  | cons a as ih =>
    cases s with
    | nil => simp [leadsWithList] at h
    | cons b bs =>
      simp only [List.cons_append, leadsWithList, Bool.and_eq_true] at h ⊢
      exact ⟨h.1, ih bs h.2⟩

theorem hasSubList_of_append (p q : List Char) (s : List Char)
    (h : hasSubList (p ++ q) s = true) : hasSubList p s = true := by
  induction s with
  | nil =>
    simp only [hasSubList] at h ⊢
    exact leadsWithList_of_append p q [] h
  | cons b bs ih =>
    simp only [hasSubList, Bool.or_eq_true] at h ⊢
    cases h with
    | inl h => exact Or.inl (leadsWithList_of_append p q (b :: bs) h)
    | inr h => exact Or.inr (ih h)

/-- A line containing "warning" contains "warn": hence the classifier's
second guard is equivalent to containing "warn". -/
theorem hasSub_warn_of_warning (s : String)
    (h : hasSub "warning" s = true) : hasSub "warn" s = true := by
  have hd : ("warning").data = ("warn").data ++ ("ing").data := by decide
  unfold hasSub at h ⊢
  rw [hd] at h
  exact hasSubList_of_append _ _ _ h

theorem classifyLine_of_errorLine (line : String)
    (h : isErrorLine line = true) : classifyLine line = .error := by
  unfold classifyLine
  unfold isErrorLine at h
  simp [h]

theorem classifyLine_of_warnLine (line : String)
    (he : isErrorLine line = false) (hw : isWarnLine line = true) :
    classifyLine line = .warning := by
  unfold classifyLine
  unfold isErrorLine at he
  unfold isWarnLine at hw
  simp [he, hw]

theorem classifyLine_of_plain (line : String)
    (he : isErrorLine line = false) (hw : isWarnLine line = false) :
    classifyLine line = .info := by
  unfold classifyLine
  unfold isErrorLine at he
  unfold isWarnLine at hw
  have hwarning : hasSub "warning" (lowerStr line) = false := by
    cases hv : hasSub "warning" (lowerStr line) with
    | false => rfl
    | true => rw [hasSub_warn_of_warning _ hv] at hw; exact hw
  simp [he, hw, hwarning]

/-- One log entry as produced by `BuilderGUI.log`: the message together
with its severity tag (the pair that is `put` on the `queue.Queue`). -/
def LogEntry := String × Severity
deriving instance DecidableEq, Repr for LogEntry

/-- `BuilderGUI.log`: the producer side puts the `(message, tag)` pair at
the back of the queue (`queue.Queue` is FIFO). -/
def pushLog (q : List LogEntry) (e : LogEntry) : List LogEntry := q ++ [e]

/-- `BuilderGUI.process_log_queue`: the consumer repeatedly calls
`get_nowait` until the queue raises `Empty`; it never blocks.  The result
is the drained entries in queue order together with the queue left behind
(always empty). -/
def processLogQueue : List LogEntry → List LogEntry × List LogEntry
  | [] => ([], [])
  | e :: rest =>
    let d := processLogQueue rest
    (e :: d.fst, d.snd)

theorem processLogQueue_drains (q : List LogEntry) :
    processLogQueue q = (q, []) := by
  induction q with
  | nil => rfl
  | cons e rest ih => simp [processLogQueue, ih]

/-- The observable behaviour of one external command: the lines its
combined output stream yields, in order, and its exit code. -/
structure CmdSpec where
  outLines : List String
  exitCode : Int
deriving DecidableEq, Repr

/-- One execution of `run_command` on a command: its observable behaviour
plus the loop iteration (0-indexed) at which the shared `is_building`
flag is observed to be `False`, if ever.  `stop_build` is the only writer
that clears the flag; it also kills the process tree of the process that
is current at that moment, which is reflected in that process's
`exitCode`. -/
structure CmdRun where
  spec : CmdSpec
  cancelAt : Option Nat
deriving DecidableEq, Repr

/-- Whether the `if not self.is_building: break` check fires at loop
iteration `i`. -/
def cancelObserved (cancelAt : Option Nat) (i : Nat) : Bool :=
  match cancelAt with
  | none => false
  | some k => decide (k ≤ i)

/-- The read loop of `run_command` (lines 1821-1832): for each streamed
line, first the cancellation check (`break` when the flag is cleared),
then `rstrip`, then — for non-empty lines — classification and logging.
Returns the classified entries actually logged. -/
def readLoop (cancelAt : Option Nat) : Nat → List String → List LogEntry
  | _, [] => []
  | i, line :: rest =>
    if cancelObserved cancelAt i then []
    else
      let t := stripRight line
      if t = "" then readLoop cancelAt (i + 1) rest
      else (t, classifyLine t) :: readLoop cancelAt (i + 1) rest

/-- `run_command` (lines 1788-1839): streams and classifies the output,
then `process.wait()` and returns `returncode == 0`.  The returned
boolean does not look at the cancellation point at all: a cancelled
attempt is indistinguishable from a failed one. -/
def run_command (r : CmdRun) : Bool × List LogEntry :=
  (decide (r.spec.exitCode = 0), readLoop r.cancelAt 0 r.spec.outLines)

theorem readLoop_cancel_take (k : Nat) (lines : List String) : ∀ i : Nat,
    readLoop (some k) i lines = readLoop none i (lines.take (k - i)) := by
  induction lines with
  | nil => intro i; simp [readLoop]
  | cons line rest ih =>
    intro i
    by_cases hki : k ≤ i
    · have h0 : k - i = 0 := Nat.sub_eq_zero_of_le hki
      simp [readLoop, cancelObserved, hki, h0]
    · have hs : k - i = (k - (i + 1)) + 1 := by omega
      rw [hs]
      simp only [List.take_succ_cons]
      simp [readLoop, cancelObserved, hki, ih (i + 1)]

/-- A path relative to a base directory, as a list of components; the
last component is the file name. -/
def RPath := List String
deriving instance DecidableEq, Repr for RPath

/-- The parent directory of a path (`server_path.parent`). -/
def parentDir (p : RPath) : RPath := List.dropLast p

/-- One candidate base of the discovery loop of step 5b: whether the
directory exists, and the sequence of file paths that `rglob` yields
beneath it, in the traversal order the filesystem enumeration produces
(`pathlib` promises no particular order). -/
structure BaseDir where
  present : Bool
  entries : List RPath
deriving DecidableEq, Repr

/-- The first entry of an `rglob(sentinel)` traversal: the first path in
traversal order whose file name is the sentinel. -/
def firstSentinelMatch (sentinel : String) (entries : List RPath) : Option RPath :=
  entries.find? (fun p => List.getLast? p == some sentinel)

/-- The app-directory discovery of step 5b (lines 1633-1643): for each
base in `[resources/app, resources/app.asar.unpacked]` in order, if the
base exists, take the parent of the first `server.js` the recursive
traversal yields; stop at the first base that produced a match.  (The
`possible_paths` list of fixed candidates defined just above this loop in
the source is never read.) -/
def findAppDir (sentinel : String) : List BaseDir → Option RPath
  | [] => none
  | b :: rest =>
    if b.present then
      match firstSentinelMatch sentinel b.entries with
      | some p => some (parentDir p)
      | none => findAppDir sentinel rest
    else findAppDir sentinel rest

/-- Character-list lexicographic order. -/
def listCharLt : List Char → List Char → Bool
  | [], [] => false
  | [], _ :: _ => true
  | _ :: _, [] => false
  | a :: as, b :: bs =>
    if a < b then true else if b < a then false else listCharLt as bs

/-- Lexicographic comparison of paths, component-wise with character
order inside components.  Used only to state the spec's tie-break. -/
def pathLt (p q : RPath) : Bool :=
  match p, q with
  | [], [] => false
  | [], _ :: _ => true
  | _ :: _, [] => false
  | a :: as, b :: bs =>
    if listCharLt a.data b.data then true
    else if listCharLt b.data a.data then false
    else pathLt as bs

/-- Modelled from the spec: "if recursive search yields multiple matches,
the first in a deterministic traversal order (lexicographic by path) is
chosen".  Stated only to compare against `findAppDir`. -/
def lexFirstSentinelMatch (sentinel : String) (entries : List RPath) : Option RPath :=
  (entries.filter (fun p => List.getLast? p == some sentinel)).foldl
    (fun acc p =>
      match acc with
      | none => some p
      | some q => if pathLt p q then some p else some q) none

/-- Result of the better_sqlite3 timestamp check after the rebuild stage
(lines 1573-1584): the artifact was modified within the last minute
(success log), is older (warning log), or does not exist (warning log).
The check only logs; it never changes the stage result. -/
inductive TimestampCheck where
  | fresh
  | staleWarning
  | missingWarning
deriving DecidableEq, Repr

/-- The timestamp check itself: `age_seconds = time.time() - mtime`,
fresh iff `age_seconds < 60`, compared against the current time (not the
pipeline start time). -/
def verifyRebuildTimestamp (nodeFileIsThere : Bool) (ageSeconds : Nat) : TimestampCheck :=
  if nodeFileIsThere then
    if ageSeconds < 60 then .fresh else .staleWarning
  else .missingWarning

/-- The signing-environment preparation of step 5 (lines 1592-1612),
given that signing is enabled: the certificate reference is stripped;
both empty gives the certificate-store mode with no variables injected;
both non-empty injects `CSC_LINK` and `CSC_KEY_PASSWORD`; otherwise a
warning is logged ("aktiviert aber unvollständig konfiguriert") and no
variables are injected.  Returns the extra environment entries and
whether the invalid-configuration warning was logged. -/
def signingEnv (enabled : Bool) (cscLink cscPassword : String) :
    List (String × String) × Bool :=
  if enabled then
    let link := stripWs cscLink
    if link = "" ∧ cscPassword = "" then ([], false)
    else if link ≠ "" ∧ cscPassword ≠ "" then
      ([("CSC_LINK", link), ("CSC_KEY_PASSWORD", cscPassword)], false)
    else ([], true)
  else ([], false)

/-- The node_modules repair decision of step 5b (line 1652): copy iff the
source tree exists and (the target is missing or the `dotenv` marker
beneath it is missing).  The same test guards both the found-app-dir
branch and the standard-path fallback branch. -/
def shouldCopyNodeModules (sourceNmThere targetNmThere dotenvThere : Bool) : Bool :=
  sourceNmThere && (!targetNmThere || !dotenvThere)

/-- Modelled from the spec: "copy iff the target is absent, or present
but missing a specific marker dependency".  Stated only to compare
against `shouldCopyNodeModules`. -/
def copySpecClaim (targetNmThere dotenvThere : Bool) : Bool :=
  !targetNmThere || !dotenvThere

/-- A generic first-success fallback chain over attempt results: try the
attempts in order, stop at the first success; report overall success and
how many attempts were executed.  The rebuild stage's hand-written
if-chain refines this. -/
def runAttempts : List Bool → Bool × Nat
  | [] => (false, 0)
  | r :: rest =>
    if r then (true, 1)
    else
      let t := runAttempts rest
      (t.fst, t.snd + 1)

/-- Labels for the observable stages of `run_build` from step 2 on. -/
inductive StageTag where
  | npmInstall
  | appNpmInstall
  | rebuild1
  | rebuild2
  | rebuild3
  | packUnpacked
  | copyNodeModules
  | rebuildPacked
  | nsis
  | verifyStep
deriving DecidableEq, Repr

/-- Overall outcome of `run_build`:
`buildSuccessful` is the "BUILD ERFOLGREICH" branch (line 1757),
`buildFailed` the "BUILD FEHLGESCHLAGEN" branch (line 1778),
`criticalAbort` the early `return` after the rebuild chain is exhausted
(lines 1564-1569, logged as "KRITISCH ... fehlgeschlagen" errors), and
`cancelled` is the spec's distinct `Cancelled` outcome, carried in the
type only so its absence from the code can be stated. -/
inductive Outcome where
  | buildSuccessful
  | buildFailed
  | criticalAbort
  | cancelled
deriving DecidableEq, Repr

/-- Whether an outcome reports failure (either failure shape). -/
def Outcome.isFailure : Outcome → Bool
  | .buildFailed => true
  | .criticalAbort => true
  | _ => false

/-- Everything outside the orchestrator that determines one run of
`run_build` from step 2 on: the behaviour of each external command (and
where the cancellation flag is observed during it), the signing
configuration, and the filesystem facts consulted by steps 4 and 5. -/
structure World where
  npmInstall : CmdRun
  appPackageThere : Bool
  appNpmInstall : CmdRun
  rebuild1 : CmdRun
  rebuild2 : CmdRun
  rebuild3 : CmdRun
  nodeFileThere : Bool
  nodeFileAgeSeconds : Nat
  signingEnabled : Bool
  cscLink : String
  cscPassword : String
  packCmd : CmdRun
  appDirFound : Bool
  sourceNmThere : Bool
  targetNmThere : Bool
  dotenvThere : Bool
  copySucceeds : Bool
  rebuildPackedCmd : CmdRun
  nsisCmd : CmdRun
deriving DecidableEq, Repr

/-- The rebuild fallback chain of step 4 (lines 1535-1562): method 1
(`@electron/rebuild` on app/), if that failed method 2
(`electron-builder install-app-deps`), if that failed method 3
(`@electron/rebuild` run from app/).  Returns the final
`rebuild_success` and the attempts executed, in order. -/
def rebuildChain (w : World) : Bool × List StageTag :=
  if (run_command w.rebuild1).fst then (true, [.rebuild1])
  else if (run_command w.rebuild2).fst then (true, [.rebuild1, .rebuild2])
  else ((run_command w.rebuild3).fst, [.rebuild1, .rebuild2, .rebuild3])

/-- The observable result of one `run_build` run. -/
structure BuildResult where
  outcome : Outcome
  executed : List StageTag
  timestampCheck : Option TimestampCheck
  signingVars : List (String × String)
  signingInvalidFlagged : Bool
  copyPerformed : Bool
deriving DecidableEq, Repr

/-- `run_build` from step 2 onward (lines 1497-1780).  Steps 2 and 3
ignore the result of `run_command`.  Step 4 runs the rebuild chain and
returns early when it is exhausted.  The timestamp check then only logs.
Step 5 prepares the signing environment, runs `electron-builder --win
--dir`, on its success decides the node_modules repair copy (a failing
copy sets `success = False`), reruns the rebuild inside the packed tree
when the app dir was found (result only warns), and builds the NSIS
installer; step 6 verifies and logs.  Note `run_build` itself never reads
`is_building`. -/
def run_build (w : World) : BuildResult :=
  let pre : List StageTag :=
    .npmInstall :: (if w.appPackageThere then [.appNpmInstall] else [])
  let rc := rebuildChain w
  if rc.fst = false then
    { outcome := .criticalAbort
      executed := pre ++ rc.snd
      timestampCheck := none
      signingVars := []
      signingInvalidFlagged := false
      copyPerformed := false }
  else
    let ts := verifyRebuildTimestamp w.nodeFileThere w.nodeFileAgeSeconds
    let sg := signingEnv w.signingEnabled w.cscLink w.cscPassword
    if (run_command w.packCmd).fst = false then
      { outcome := .buildFailed
        executed := pre ++ rc.snd ++ [.packUnpacked]
        timestampCheck := some ts
        signingVars := sg.fst
        signingInvalidFlagged := sg.snd
        copyPerformed := false }
    else
      let doCopy := shouldCopyNodeModules w.sourceNmThere w.targetNmThere w.dotenvThere
      let execCopy := pre ++ rc.snd ++ [.packUnpacked]
        ++ (if doCopy then [.copyNodeModules] else [])
      if doCopy && !w.copySucceeds then
        { outcome := .buildFailed
          executed := execCopy
          timestampCheck := some ts
          signingVars := sg.fst
          signingInvalidFlagged := sg.snd
          copyPerformed := doCopy }
      else
        let execRp := execCopy ++ (if w.appDirFound then [.rebuildPacked] else [])
        if (run_command w.nsisCmd).fst then
          { outcome := .buildSuccessful
            executed := execRp ++ [.nsis, .verifyStep]
            timestampCheck := some ts
            signingVars := sg.fst
            signingInvalidFlagged := sg.snd
            copyPerformed := doCopy }
        else
          { outcome := .buildFailed
            executed := execRp ++ [.nsis]
            timestampCheck := some ts
            signingVars := sg.fst
            signingInvalidFlagged := sg.snd
            copyPerformed := doCopy }

/-- A successfully exiting command with no output and no cancellation. -/
def cmdOk : CmdRun := { spec := { outLines := [], exitCode := 0 }, cancelAt := none }

/-- A command exiting with code 1, no output, no cancellation. -/
def cmdFail : CmdRun := { spec := { outLines := [], exitCode := 1 }, cancelAt := none }

/-- A world in which every external command succeeds and the packaged
tree is already complete. -/
def happyWorld : World :=
  { npmInstall := cmdOk
    appPackageThere := true
    appNpmInstall := cmdOk
    rebuild1 := cmdOk
    rebuild2 := cmdOk
    rebuild3 := cmdOk
    nodeFileThere := true
    nodeFileAgeSeconds := 5
    signingEnabled := false
    cscLink := ""
    cscPassword := ""
    packCmd := cmdOk
    appDirFound := true
    sourceNmThere := true
    targetNmThere := true
    dotenvThere := true
    copySucceeds := true
    rebuildPackedCmd := cmdOk
    nsisCmd := cmdOk }

theorem chain_tags (w : World) : ∀ t ∈ (rebuildChain w).snd,
    t = StageTag.rebuild1 ∨ t = StageTag.rebuild2 ∨ t = StageTag.rebuild3 := by
  intro t ht
  unfold rebuildChain at ht
  cases h1 : (run_command w.rebuild1).fst <;>
    cases h2 : (run_command w.rebuild2).fst <;>
      simp [h1, h2] at ht <;> tauto

theorem notMem_chain (w : World) (t : StageTag)
    (h1 : t ≠ StageTag.rebuild1) (h2 : t ≠ StageTag.rebuild2)
    (h3 : t ≠ StageTag.rebuild3) :
    t ∉ (rebuildChain w).snd := by
  intro hmem
  rcases chain_tags w t hmem with h | h | h
  exacts [h1 h, h2 h, h3 h]

/-- C7: Every output line read from an external command is classified by
case-insensitive substring match: a line containing "error" or the
failure glyph is classified as error; otherwise a line containing "warn"
is classified as warning; every other line is classified as info. -/
theorem c7_line_classification (line : String) :
    (isErrorLine line = true → classifyLine line = Severity.error)
    ∧ (isErrorLine line = false → isWarnLine line = true →
        classifyLine line = Severity.warning)
    ∧ (isErrorLine line = false → isWarnLine line = false →
        classifyLine line = Severity.info) :=
  ⟨classifyLine_of_errorLine line,
   classifyLine_of_warnLine line,
   classifyLine_of_plain line⟩

theorem c7_witness :
    classifyLine "npm ERROR something" = Severity.error
    ∧ classifyLine "deprecation Warning here" = Severity.warning
    ∧ classifyLine "compiling module" = Severity.info :=
  ⟨(c7_line_classification "npm ERROR something").1 (by decide),
   (c7_line_classification "deprecation Warning here").2.1 (by decide) (by decide),
   (c7_line_classification "compiling module").2.2 (by decide) (by decide)⟩

/-- C10: a line containing both an error indicator and a warning
indicator is classified as error: the error check takes precedence. -/
theorem c10_error_precedence (line : String)
    (h1 : isErrorLine line = true) (_h2 : isWarnLine line = true) :
    classifyLine line = Severity.error :=
  classifyLine_of_errorLine line h1

theorem c10_witness : classifyLine "warning: error found" = Severity.error :=
  c10_error_precedence "warning: error found" (by decide) (by decide)

/-- C8: the log sink preserves FIFO order from a single producer, never
drops an entry, and its drain is non-blocking and yields an empty
sequence when nothing is pending: draining returns the whole queue in
insertion order and leaves it empty, and in particular pushing E1, E2,
E3 and draining yields exactly E1, E2, E3. -/
theorem c8_logsink_fifo (q : List LogEntry) (e1 e2 e3 : LogEntry) :
    processLogQueue q = (q, [])
    ∧ (processLogQueue (pushLog (pushLog (pushLog [] e1) e2) e3)).fst = [e1, e2, e3]
    ∧ processLogQueue ([] : List LogEntry) = ([], []) := by
  refine ⟨processLogQueue_drains q, ?_, rfl⟩
  simp [pushLog, processLogQueue_drains]

theorem runAttempts_first_success : ∀ (k : Nat) (rs : List Bool),
    rs.take k = List.replicate k false → rs.get? k = some true →
    runAttempts rs = (true, k + 1) := by
  intro k
  induction k with
  | zero =>
    intro rs _ h2
    cases rs with
    | nil => simp at h2
    | cons r rest =>
      simp only [List.get?] at h2
      injection h2 with h2
      simp [runAttempts, h2]
  | succ k ih =>
    intro rs h1 h2
    cases rs with
    | nil => simp at h2
    | cons r rest =>
      simp only [List.take_succ_cons, List.replicate_succ, List.cons.injEq] at h1
      simp only [List.get?] at h2
      have ht := ih rest h1.2 h2
      simp [runAttempts, h1.1, ht]

theorem rebuildChain_refines (w : World) :
    (rebuildChain w).snd = List.take
      (runAttempts [(run_command w.rebuild1).fst, (run_command w.rebuild2).fst,
        (run_command w.rebuild3).fst]).snd
      [StageTag.rebuild1, StageTag.rebuild2, StageTag.rebuild3]
    ∧ (rebuildChain w).fst = (runAttempts [(run_command w.rebuild1).fst,
        (run_command w.rebuild2).fst, (run_command w.rebuild3).fst]).fst := by
  cases h1 : (run_command w.rebuild1).fst <;>
    cases h2 : (run_command w.rebuild2).fst <;>
      cases h3 : (run_command w.rebuild3).fst <;>
        simp [rebuildChain, runAttempts, h1, h2, h3]

/-- C5: within a stage's fallback chain, if attempt k (1-indexed) is the
first to succeed then exactly attempts 1..k execute, in declared order,
and later attempts do not: the generic chain executes exactly k attempts,
and the rebuild stage's hand-written chain executes exactly the matching
prefix of its three attempts. -/
theorem c5_first_success (w : World) (rs : List Bool) (k : Nat)
    (h1 : rs.take k = List.replicate k false) (h2 : rs.get? k = some true) :
    runAttempts rs = (true, k + 1)
    ∧ (rebuildChain w).snd = List.take
        (runAttempts [(run_command w.rebuild1).fst, (run_command w.rebuild2).fst,
          (run_command w.rebuild3).fst]).snd
        [StageTag.rebuild1, StageTag.rebuild2, StageTag.rebuild3]
    ∧ (rebuildChain w).fst = (runAttempts [(run_command w.rebuild1).fst,
        (run_command w.rebuild2).fst, (run_command w.rebuild3).fst]).fst :=
  ⟨runAttempts_first_success k rs h1 h2,
   (rebuildChain_refines w).1, (rebuildChain_refines w).2⟩

/-- A world whose first rebuild attempt fails and second succeeds. -/
def secondAttemptWorld : World := { happyWorld with rebuild1 := cmdFail }

theorem c5_witness :
    runAttempts [false, true, false] = (true, 2)
    ∧ (rebuildChain secondAttemptWorld).snd = List.take
        (runAttempts [(run_command secondAttemptWorld.rebuild1).fst,
          (run_command secondAttemptWorld.rebuild2).fst,
          (run_command secondAttemptWorld.rebuild3).fst]).snd
        [StageTag.rebuild1, StageTag.rebuild2, StageTag.rebuild3]
    ∧ (rebuildChain secondAttemptWorld).fst =
      (runAttempts [(run_command secondAttemptWorld.rebuild1).fst,
        (run_command secondAttemptWorld.rebuild2).fst,
        (run_command secondAttemptWorld.rebuild3).fst]).fst :=
  c5_first_success secondAttemptWorld [false, true, false] 1 (by decide) (by decide)

/-- C6: with signing enabled, both credential fields empty injects no
signing variables (credential-store mode); both non-empty injects both
variables; exactly one non-empty logs the invalid-configuration warning
and injects nothing. -/
theorem c6_signing_config (link pw : String) :
    (stripWs link = "" → pw = "" → signingEnv true link pw = ([], false))
    ∧ (stripWs link ≠ "" → pw ≠ "" →
        signingEnv true link pw =
          ([("CSC_LINK", stripWs link), ("CSC_KEY_PASSWORD", pw)], false))
    ∧ ((stripWs link = "" ∧ pw ≠ "") ∨ (stripWs link ≠ "" ∧ pw = "") →
        signingEnv true link pw = ([], true)) := by
  refine ⟨?_, ?_, ?_⟩
  · intro h1 h2
    simp [signingEnv, h1, h2]
  · intro h1 h2
    simp [signingEnv, h1, h2]
  · rintro (⟨h1, h2⟩ | ⟨h1, h2⟩)
    · simp [signingEnv, h1, h2]
    · simp [signingEnv, h1, h2]

theorem c6_witness : signingEnv true "cert.pfx" "" = ([], true) :=
  (c6_signing_config "cert.pfx" "").2.2 (Or.inr ⟨by decide, rfl⟩)

theorem rebuild_exhausted_aborts (w : World)
    (h1 : (run_command w.rebuild1).fst = false)
    (h2 : (run_command w.rebuild2).fst = false)
    (h3 : (run_command w.rebuild3).fst = false) :
    (run_build w).outcome = Outcome.criticalAbort
    ∧ StageTag.packUnpacked ∉ (run_build w).executed
    ∧ StageTag.copyNodeModules ∉ (run_build w).executed
    ∧ StageTag.rebuildPacked ∉ (run_build w).executed
    ∧ StageTag.nsis ∉ (run_build w).executed
    ∧ StageTag.verifyStep ∉ (run_build w).executed := by
  have hrc : rebuildChain w =
      (false, [StageTag.rebuild1, StageTag.rebuild2, StageTag.rebuild3]) := by
    simp [rebuildChain, h1, h2, h3]
  cases hap : w.appPackageThere <;>
    simp [run_build, hrc, hap]

theorem pack_fail_stops (w : World)
    (hp : (run_command w.packCmd).fst = false) :
    (run_build w).outcome.isFailure = true
    ∧ StageTag.copyNodeModules ∉ (run_build w).executed
    ∧ StageTag.rebuildPacked ∉ (run_build w).executed
    ∧ StageTag.nsis ∉ (run_build w).executed
    ∧ StageTag.verifyStep ∉ (run_build w).executed := by
  cases h1 : (run_command w.rebuild1).fst <;>
    cases h2 : (run_command w.rebuild2).fst <;>
      cases h3 : (run_command w.rebuild3).fst <;>
        cases hap : w.appPackageThere <;>
          simp [run_build, rebuildChain, Outcome.isFailure, h1, h2, h3, hap, hp]

theorem copy_fail_stops (w : World)
    (hdc : shouldCopyNodeModules w.sourceNmThere w.targetNmThere w.dotenvThere = true)
    (hcs : w.copySucceeds = false) :
    (run_build w).outcome.isFailure = true
    ∧ StageTag.rebuildPacked ∉ (run_build w).executed
    ∧ StageTag.nsis ∉ (run_build w).executed
    ∧ StageTag.verifyStep ∉ (run_build w).executed := by
  cases h1 : (run_command w.rebuild1).fst <;>
    cases h2 : (run_command w.rebuild2).fst <;>
      cases h3 : (run_command w.rebuild3).fst <;>
        cases hap : w.appPackageThere <;>
          cases hp : (run_command w.packCmd).fst <;>
            simp [run_build, rebuildChain, Outcome.isFailure, h1, h2, h3, hap, hp, hdc, hcs]

theorem nsis_fail_stops (w : World)
    (hn : (run_command w.nsisCmd).fst = false) :
    (run_build w).outcome.isFailure = true
    ∧ StageTag.verifyStep ∉ (run_build w).executed := by
  cases h1 : (run_command w.rebuild1).fst <;>
    cases h2 : (run_command w.rebuild2).fst <;>
      cases h3 : (run_command w.rebuild3).fst <;>
        cases hap : w.appPackageThere <;>
          cases hp : (run_command w.packCmd).fst <;>
            cases hdc : shouldCopyNodeModules w.sourceNmThere w.targetNmThere w.dotenvThere <;>
              cases hcs : w.copySucceeds <;>
                cases had : w.appDirFound <;>
                  simp [run_build, rebuildChain, Outcome.isFailure,
                    h1, h2, h3, hap, hp, hdc, hcs, had, hn]

/-- C2: for every critical stage whose attempts all fail — the rebuild
chain of step 4, the unpacked build of step 5a, the node_modules repair
copy of step 5b, the NSIS build of step 5d — the pipeline ends with a
failure outcome (the step-4 exhaustion is the early critical abort) and
no subsequent stage executes. -/
theorem c2_critical_stage_aborts (w : World) :
    ((run_command w.rebuild1).fst = false → (run_command w.rebuild2).fst = false →
      (run_command w.rebuild3).fst = false →
      (run_build w).outcome = Outcome.criticalAbort
      ∧ (run_build w).outcome.isFailure = true
      ∧ StageTag.packUnpacked ∉ (run_build w).executed
      ∧ StageTag.copyNodeModules ∉ (run_build w).executed
      ∧ StageTag.rebuildPacked ∉ (run_build w).executed
      ∧ StageTag.nsis ∉ (run_build w).executed
      ∧ StageTag.verifyStep ∉ (run_build w).executed)
    ∧ ((run_command w.packCmd).fst = false →
      (run_build w).outcome.isFailure = true
      ∧ StageTag.copyNodeModules ∉ (run_build w).executed
      ∧ StageTag.rebuildPacked ∉ (run_build w).executed
      ∧ StageTag.nsis ∉ (run_build w).executed
      ∧ StageTag.verifyStep ∉ (run_build w).executed)
    ∧ (shouldCopyNodeModules w.sourceNmThere w.targetNmThere w.dotenvThere = true →
      w.copySucceeds = false →
      (run_build w).outcome.isFailure = true
      ∧ StageTag.rebuildPacked ∉ (run_build w).executed
      ∧ StageTag.nsis ∉ (run_build w).executed
      ∧ StageTag.verifyStep ∉ (run_build w).executed)
    ∧ ((run_command w.nsisCmd).fst = false →
      (run_build w).outcome.isFailure = true
      ∧ StageTag.verifyStep ∉ (run_build w).executed) := by
  refine ⟨?_, pack_fail_stops w, copy_fail_stops w, nsis_fail_stops w⟩
  intro h1 h2 h3
  have h := rebuild_exhausted_aborts w h1 h2 h3
  exact ⟨h.1, by rw [h.1]; rfl, h.2.1, h.2.2.1, h.2.2.2.1, h.2.2.2.2.1, h.2.2.2.2.2⟩

/-- A world in which all three rebuild attempts fail. -/
def rebuildsFailWorld : World :=
  { happyWorld with rebuild1 := cmdFail, rebuild2 := cmdFail, rebuild3 := cmdFail }

theorem c2_witness :
    (run_build rebuildsFailWorld).outcome = Outcome.criticalAbort
    ∧ (run_build rebuildsFailWorld).outcome.isFailure = true
    ∧ StageTag.packUnpacked ∉ (run_build rebuildsFailWorld).executed
    ∧ StageTag.copyNodeModules ∉ (run_build rebuildsFailWorld).executed
    ∧ StageTag.rebuildPacked ∉ (run_build rebuildsFailWorld).executed
    ∧ StageTag.nsis ∉ (run_build rebuildsFailWorld).executed
    ∧ StageTag.verifyStep ∉ (run_build rebuildsFailWorld).executed :=
  (c2_critical_stage_aborts rebuildsFailWorld).1 (by decide) (by decide) (by decide)

/-- A world in which the rebuild succeeds but the compiled artifact's
modification time is an hour old — i.e. certainly not newer than the
pipeline start. -/
def staleArtifactWorld : World := { happyWorld with nodeFileAgeSeconds := 3600 }

/-- C1 counterexample: with the rebuild reporting success but the
compiled artifact an hour old, the run logs only the stale warning,
continues into packaging, and ends successful — the stage is not treated
as a failure. -/
theorem c1_counterexample :
    (run_build staleArtifactWorld).timestampCheck = some TimestampCheck.staleWarning
    ∧ (run_build staleArtifactWorld).outcome = Outcome.buildSuccessful
    ∧ (run_build staleArtifactWorld).outcome.isFailure = false
    ∧ StageTag.packUnpacked ∈ (run_build staleArtifactWorld).executed
    ∧ StageTag.nsis ∈ (run_build staleArtifactWorld).executed := by decide

theorem run_build_timestamp_invariant (w : World) (b : Bool) (a : Nat) :
    (run_build { w with nodeFileThere := b, nodeFileAgeSeconds := a }).outcome
      = (run_build w).outcome
    ∧ (run_build { w with nodeFileThere := b, nodeFileAgeSeconds := a }).executed
      = (run_build w).executed
    ∧ (run_build { w with nodeFileThere := b, nodeFileAgeSeconds := a }).copyPerformed
      = (run_build w).copyPerformed := by
  cases h1 : (run_command w.rebuild1).fst <;>
    cases h2 : (run_command w.rebuild2).fst <;>
      cases h3 : (run_command w.rebuild3).fst <;>
        cases hp : (run_command w.packCmd).fst <;>
          cases hdc : shouldCopyNodeModules w.sourceNmThere w.targetNmThere w.dotenvThere <;>
            cases hcs : w.copySucceeds <;>
              cases hn : (run_command w.nsisCmd).fst <;>
                simp [run_build, rebuildChain, h1, h2, h3, hp, hdc, hcs, hn]

theorem timestamp_check_only_warns (w : World) (tc : TimestampCheck)
    (hr : (rebuildChain w).fst = true)
    (hts : verifyRebuildTimestamp w.nodeFileThere w.nodeFileAgeSeconds = tc) :
    (run_build w).timestampCheck = some tc
    ∧ StageTag.packUnpacked ∈ (run_build w).executed
    ∧ (run_build w).outcome ≠ Outcome.criticalAbort := by
  cases hap : w.appPackageThere <;>
    cases hp : (run_command w.packCmd).fst <;>
      cases hdc : shouldCopyNodeModules w.sourceNmThere w.targetNmThere w.dotenvThere <;>
        cases hcs : w.copySucceeds <;>
          cases had : w.appDirFound <;>
            cases hn2 : (run_command w.nsisCmd).fst <;>
              simp [run_build, hr, hts, hap, hp, hdc, hcs, had, hn2]

/-- C1 amended: after the rebuild stage reports success the pipeline
checks the artifact's modification time against the current time; when
the artifact is missing, or exists but is 60 or more seconds old, it
only logs the corresponding warning — the stage is still treated as
success, the packaging stage still executes, the outcome is never the
critical abort, and the pipeline's outcome, executed stages and copy
decision do not depend on the artifact's existence or age at all. -/
theorem c1_timestamp_check_never_fails (w : World) (b : Bool) (a : Nat) :
    ((run_build { w with nodeFileThere := b, nodeFileAgeSeconds := a }).outcome
        = (run_build w).outcome
      ∧ (run_build { w with nodeFileThere := b, nodeFileAgeSeconds := a }).executed
        = (run_build w).executed
      ∧ (run_build { w with nodeFileThere := b, nodeFileAgeSeconds := a }).copyPerformed
        = (run_build w).copyPerformed)
    ∧ ((rebuildChain w).fst = true → w.nodeFileThere = false →
        (run_build w).timestampCheck = some TimestampCheck.missingWarning
        ∧ StageTag.packUnpacked ∈ (run_build w).executed
        ∧ (run_build w).outcome ≠ Outcome.criticalAbort)
    ∧ ((rebuildChain w).fst = true → w.nodeFileThere = true →
        60 ≤ w.nodeFileAgeSeconds →
        (run_build w).timestampCheck = some TimestampCheck.staleWarning
        ∧ StageTag.packUnpacked ∈ (run_build w).executed
        ∧ (run_build w).outcome ≠ Outcome.criticalAbort) := by
  refine ⟨run_build_timestamp_invariant w b a, ?_, ?_⟩
  · intro hr hn
    exact timestamp_check_only_warns w TimestampCheck.missingWarning hr
      (by simp [verifyRebuildTimestamp, hn])
  · intro hr hn ha
    exact timestamp_check_only_warns w TimestampCheck.staleWarning hr
      (by simp [verifyRebuildTimestamp, hn, Nat.not_lt.mpr ha])

/-- A world in which the rebuild succeeds but the compiled artifact does
not exist afterwards. -/
def missingArtifactWorld : World := { happyWorld with nodeFileThere := false }

theorem c1_witness :
    ((run_build missingArtifactWorld).timestampCheck
        = some TimestampCheck.missingWarning
      ∧ StageTag.packUnpacked ∈ (run_build missingArtifactWorld).executed
      ∧ (run_build missingArtifactWorld).outcome ≠ Outcome.criticalAbort)
    ∧ ((run_build staleArtifactWorld).timestampCheck
        = some TimestampCheck.staleWarning
      ∧ StageTag.packUnpacked ∈ (run_build staleArtifactWorld).executed
      ∧ (run_build staleArtifactWorld).outcome ≠ Outcome.criticalAbort) :=
  ⟨(c1_timestamp_check_never_fails missingArtifactWorld true 0).2.1
      (by decide) (by decide),
   (c1_timestamp_check_never_fails staleArtifactWorld true 0).2.2
      (by decide) (by decide) (by decide)⟩

theorem run_build_never_cancelled (w : World) :
    (run_build w).outcome ≠ Outcome.cancelled := by
  cases h1 : (rebuildChain w).fst <;>
    cases hp : (run_command w.packCmd).fst <;>
      cases hdc : shouldCopyNodeModules w.sourceNmThere w.targetNmThere w.dotenvThere <;>
        cases hcs : w.copySucceeds <;>
          cases hn : (run_command w.nsisCmd).fst <;>
            simp [run_build, h1, hp, hdc, hcs, hn]

/-- A world in which the user cancels while the first rebuild attempt's
output is being read: the flag is observed at iteration 1 of attempt 1
(whose process tree `stop_build` kills, hence its exit code 1), and at
iteration 0 of every later command, all of which run to completion
unkilled. -/
def cancelWorld : World :=
  { happyWorld with
    rebuild1 := { spec := { outLines := ["compiling", "more output"], exitCode := 1 }
                  cancelAt := some 1 }
    rebuild2 := { spec := { outLines := ["rebuilt ok"], exitCode := 0 }
                  cancelAt := some 0 }
    packCmd := { spec := { outLines := [], exitCode := 0 }, cancelAt := some 0 }
    rebuildPackedCmd := { spec := { outLines := [], exitCode := 0 }, cancelAt := some 0 }
    nsisCmd := { spec := { outLines := [], exitCode := 0 }, cancelAt := some 0 } }

/-- C3 counterexample: cancellation observed while the first rebuild
attempt's stream is read does stop the reading (only the first line is
logged), but the attempt merely reports failure, the pipeline then runs
the second attempt and every later stage, and the run ends with the
success outcome — there is no distinct Cancelled outcome. -/
theorem c3_counterexample :
    (run_command cancelWorld.rebuild1).snd = [("compiling", Severity.info)]
    ∧ (run_command cancelWorld.rebuild1).fst = false
    ∧ (run_build cancelWorld).outcome = Outcome.buildSuccessful
    ∧ (run_build cancelWorld).outcome ≠ Outcome.cancelled
    ∧ StageTag.rebuild2 ∈ (run_build cancelWorld).executed
    ∧ StageTag.nsis ∈ (run_build cancelWorld).executed := by decide

/-- C3 amended: when cancellation is observed while a step's stream is
read, the executor stops at that iteration — exactly the lines before
the cancellation point are processed — and the killed process makes the
step return failure; but the step's result is nothing more than the
exit-code test, and `run_build` never produces the spec's Cancelled
outcome: a cancelled attempt is indistinguishable from a failed one and
the pipeline carries on. -/
theorem c3_cancellation_semantics (w : World) (lines : List String)
    (ec : Int) (k : Nat) :
    (run_command { spec := { outLines := lines, exitCode := ec }, cancelAt := some k }).snd
      = (run_command { spec := { outLines := lines.take k, exitCode := ec }, cancelAt := none }).snd
    ∧ (run_command { spec := { outLines := lines, exitCode := ec }, cancelAt := some k }).fst
      = decide (ec = 0)
    ∧ (run_build w).outcome ≠ Outcome.cancelled := by
  refine ⟨?_, rfl, run_build_never_cancelled w⟩
  simpa using readLoop_cancel_take k lines 0

theorem rebuildChain_snd_cases (w : World) :
    (rebuildChain w).snd = [StageTag.rebuild1]
    ∨ (rebuildChain w).snd = [StageTag.rebuild1, StageTag.rebuild2]
    ∨ (rebuildChain w).snd = [StageTag.rebuild1, StageTag.rebuild2, StageTag.rebuild3] := by
  unfold rebuildChain
  cases h1 : (run_command w.rebuild1).fst <;>
    cases h2 : (run_command w.rebuild2).fst <;> simp

/-- A world in which the packaged target tree and the source tree are
both absent: the claim's iff demands a copy, the code performs none. -/
def missingSourceWorld : World :=
  { happyWorld with
    sourceNmThere := false, targetNmThere := false, dotenvThere := false }

/-- C4 counterexample: with the packaged dependency directory absent but
the source dependency tree also absent, no copy is performed, although
the claim's iff (copy ⟺ target absent or marker missing) requires one. -/
theorem c4_counterexample :
    shouldCopyNodeModules false false false = false
    ∧ copySpecClaim false false = true
    ∧ shouldCopyNodeModules false false false ≠ copySpecClaim false false
    ∧ (run_build missingSourceWorld).copyPerformed = false
    ∧ (run_build missingSourceWorld).outcome = Outcome.buildSuccessful := by decide

/-- C4 amended: after the packaging stage the copy is performed iff the
source dependency tree exists and (the target directory is absent or is
missing the marker dependency); when the target already contains the
marker no copy occurs, and whenever the source tree exists the decision
coincides with the claim's iff. -/
theorem c4_copy_decision (w : World)
    (hr : (rebuildChain w).fst = true)
    (hp : (run_command w.packCmd).fst = true) :
    (run_build w).copyPerformed
      = (w.sourceNmThere && (!w.targetNmThere || !w.dotenvThere))
    ∧ (w.targetNmThere = true → w.dotenvThere = true →
        (run_build w).copyPerformed = false
        ∧ StageTag.copyNodeModules ∉ (run_build w).executed)
    ∧ (w.sourceNmThere = true →
        (run_build w).copyPerformed = copySpecClaim w.targetNmThere w.dotenvThere) := by
  rcases rebuildChain_snd_cases w with hsnd | hsnd | hsnd <;>
    cases hap : w.appPackageThere <;>
      cases hs : w.sourceNmThere <;>
        cases ht : w.targetNmThere <;>
          cases hd : w.dotenvThere <;>
            cases hcs : w.copySucceeds <;>
              cases had : w.appDirFound <;>
                cases hn : (run_command w.nsisCmd).fst <;>
                  simp [run_build, shouldCopyNodeModules, copySpecClaim,
                    hr, hp, hsnd, hap, hs, ht, hd, hcs, had, hn]

theorem c4_witness :
    (run_build happyWorld).copyPerformed
      = (happyWorld.sourceNmThere
          && (!happyWorld.targetNmThere || !happyWorld.dotenvThere))
    ∧ (happyWorld.targetNmThere = true → happyWorld.dotenvThere = true →
        (run_build happyWorld).copyPerformed = false
        ∧ StageTag.copyNodeModules ∉ (run_build happyWorld).executed)
    ∧ (happyWorld.sourceNmThere = true →
        (run_build happyWorld).copyPerformed
          = copySpecClaim happyWorld.targetNmThere happyWorld.dotenvThere) :=
  c4_copy_decision happyWorld (by decide) (by decide)

theorem find?_first_match {α : Type} (pr : α → Bool) :
    ∀ (pre : List α) (p : α) (post : List α),
    (∀ q ∈ pre, pr q = false) → pr p = true →
    List.find? pr (pre ++ p :: post) = some p := by
  intro pre
  induction pre with
  | nil =>
    intro p post _ hp
    simpa using List.find?_cons_of_pos _ hp
  | cons q qs ih =>
    intro p post hpre hp
    have hq : pr q = false := hpre q (List.mem_cons_self q qs)
    rw [List.cons_append, List.find?_cons_of_neg _ (by simp [hq])]
    exact ih p post (fun x hx => hpre x (List.mem_cons_of_mem q hx)) hp

/-- The traversal of the first base, disagreeing with lexicographic
order: "b/server.js" is yielded before "a/server.js". -/
def c9entries : List RPath := [["b", "server.js"], ["a", "server.js"]]

/-- C9 counterexample: when the recursive search yields several sentinel
matches, discovery returns the parent of the first match in traversal
order — here `b` — not the parent of the lexicographically first path
`a/server.js` that the claim requires. -/
theorem c9_counterexample :
    findAppDir "server.js" [{ present := true, entries := c9entries }] = some ["b"]
    ∧ Option.map parentDir (lexFirstSentinelMatch "server.js" c9entries) = some ["a"]
    ∧ findAppDir "server.js" [{ present := true, entries := c9entries }]
      ≠ Option.map parentDir (lexFirstSentinelMatch "server.js" c9entries) := by decide

/-- C9 amended: the fixed candidate list is dead code and discovery
always uses the recursive search; for the first existing base it returns
the parent of the first sentinel match in whatever order the traversal
yields, which need not be lexicographic. -/
theorem c9_first_traversal_match (sentinel : String) (pre post : List RPath)
    (p : RPath) (rest : List BaseDir)
    (hpre : ∀ q ∈ pre, (List.getLast? q == some sentinel) = false)
    (hp : (List.getLast? p == some sentinel) = true) :
    findAppDir sentinel ({ present := true, entries := pre ++ p :: post } :: rest)
      = some (parentDir p) := by
  have hfind : firstSentinelMatch sentinel (pre ++ p :: post) = some p :=
    find?_first_match _ pre p post hpre hp
  simp [findAppDir, hfind]

theorem c9_witness :
    findAppDir "server.js"
      [{ present := true
         entries := [["x", "readme.md"], ["b", "server.js"], ["a", "server.js"]] }]
      = some ["b"] :=
  c9_first_traversal_match "server.js" [["x", "readme.md"]] [["a", "server.js"]]
    ["b", "server.js"] [] (by decide) (by decide)
